import Mathlib

/-!
Verification development for the notebook "How fast are NumPy ops.ipynb".

The notebook builds a Sample Set `l1` of one million random floats in
[1, 101), then computes an elementwise base-10 logarithm four ways,
timing each into the list `speed`:

  1. for-loop:          for item in l1: l2.append(lg10(item))
  2. comprehension:     l2 = [lg10(i) for i in range(1,1000001)]
  3. map:               l2 = list(map(op1, l1))   with op1 x = lg10 x
  4. vectorized NumPy:  a2 = np.log10(a1)         with a1 = np.array(l1)

The numeric carrier is ℚ. The mathematical log10 function is an external
library primitive (the notebook imports it; the spec treats it as a
black box), so it is modelled by an abstract parameter `lg : ℚ → ℚ`
giving the value of log10 on positive inputs; both math.log10 and
np.log10 compute the same mathematical function, so "elementwise equal
within floating-point tolerance" becomes exact equality in this model.
What is modelled faithfully from the source is everything around that
black box: the iteration styles, the inputs actually consumed, the
accumulator mutation, the error behaviour (math.log10 raises ValueError
on non-positive input; np.log10 instead returns nan for negatives and
-inf for zero, per IEEE semantics, without raising), and the timing
bookkeeping around each strategy.
-/

/-- Python exception: math.log10 raises ValueError ("math domain error")
on a non-positive argument. -/
inductive PyError where
  | valueError
deriving Repr, DecidableEq

/-- Result of a NumPy elementwise log10: a finite value on positive
input, -inf at zero, nan on negative input (NumPy warns but does not
raise). -/
inductive NpVal where
  | finite (q : ℚ)
  | negInf
  | nan
deriving Repr, DecidableEq

/-- Model of math.log10 (imported as lg10): raises ValueError on a
non-positive argument, otherwise returns the log10 value `lg x`. -/
def mathLog10 (lg : ℚ → ℚ) (x : ℚ) : Except PyError ℚ :=
  if x ≤ 0 then .error .valueError else .ok (lg x)

/-- Model of NumPy elementwise log10 on one entry: nan below zero,
-inf at zero, finite value above zero; never raises. -/
def npLog10Elem (lg : ℚ → ℚ) (x : ℚ) : NpVal :=
  if x < 0 then .nan else if x = 0 then .negInf else .finite (lg x)

/-- Model of np.log10 applied to a whole array. -/
def npLog10 (lg : ℚ → ℚ) (a : List ℚ) : List NpVal :=
  a.map (npLog10Elem lg)

/-- Model of Python range(a, b): the integers a, a+1, ..., b-1. -/
def pyRange (a b : ℕ) : List ℕ :=
  List.range' a (b - a)

/-- The integer inputs the list comprehension iterates over, read as
rationals: range(1, 1000001) = [1, 2, ..., 1000000]. -/
def pyRangeQ : List ℚ :=
  (pyRange 1 1000001).map (fun i : ℕ => (i : ℚ))

/-- Model of np.random.random(n): n uniform draws from [0, 1), the
randomness source being the abstract stream `u`. -/
def npRandomRandom (u : ℕ → ℚ) (n : ℕ) : List ℚ :=
  (List.range n).map u

/-- The Data Generator, from `l1 = list(100*(np.random.random(N))+1)`. -/
def dataGenerator (u : ℕ → ℚ) (n : ℕ) : List ℚ :=
  (npRandomRandom u n).map (fun x => 100 * x + 1)

/-- The for-loop strategy body, from
`for item in l1: l2.append(lg10(item))`: iterate the sample in order,
appending each log10 value to the accumulator `l2`; a ValueError
mid-loop aborts and propagates. -/
def forLoopAppend (lg : ℚ → ℚ) (l2 : List ℚ) : List ℚ → Except PyError (List ℚ)
  | [] => .ok l2
  | x :: xs =>
    match mathLog10 lg x with
    | .error e => .error e
    | .ok y => forLoopAppend lg (l2 ++ [y]) xs

/-- Model of Python list(map(f, l)) for a fallible elementwise f: the
first exception raised propagates. -/
def pyMap (f : ℚ → Except PyError ℚ) : List ℚ → Except PyError (List ℚ)
  | [] => .ok []
  | x :: xs =>
    match f x with
    | .error e => .error e
    | .ok y => (pyMap f xs).map (fun ys => y :: ys)

/-- The helper from the notebook: `def op1(x): return (lg10(x))`. -/
def op1 (lg : ℚ → ℚ) (x : ℚ) : Except PyError ℚ :=
  mathLog10 lg x

/-- The list-comprehension strategy, from
`l2 = [lg10(i) for i in range(1,1000001)]`. It runs in a scope where
the Sample Set `l1` exists but, as written, reads the generated integer
range instead of `l1` (the parameter `l1` is deliberately unused,
mirroring the source). -/
def comprehensionStrategy (lg : ℚ → ℚ) (l1 : List ℚ) : Except PyError (List ℚ) :=
  pyMap (mathLog10 lg) pyRangeQ

/-- The map strategy, from `l2 = list(map(op1, l1))`. -/
def mapStrategy (lg : ℚ → ℚ) (l1 : List ℚ) : Except PyError (List ℚ) :=
  pyMap (op1 lg) l1

/-- The vectorized NumPy strategy, from `a2 = np.log10(a1)` where
`a1 = np.array(l1)`. -/
def numpyStrategy (lg : ℚ → ℚ) (l1 : List ℚ) : List NpVal :=
  npLog10 lg l1

/-- The Timing Harness pattern wrapped around each strategy cell:
`t1 = time.time(); <compute>; t2 = time.time(); speed.append(t2-t1)`.
If the computation raises, the exception propagates and the append
never executes, so `speed` is returned unchanged. -/
def timedRun {α : Type} (t1 t2 : ℚ) (speed : List ℚ) (comp : Except PyError α) :
    Except PyError α × List ℚ :=
  match comp with
  | .error e => (.error e, speed)
  | .ok a => (.ok a, speed ++ [t2 - t1])

/-- The mutable notebook state: the variables assigned by the cells. -/
structure PyState where
  N : ℕ
  speed : List ℚ
  l1 : List ℚ
  a1 : List ℚ
  l2 : List ℚ
  a2 : List NpVal
  l3 : List NpVal
deriving Repr, DecidableEq

/-- Before any cell runs, every variable is unbound; modelled by empty
defaults. -/
def PyState.init : PyState :=
  ⟨0, [], [], [], [], [], []⟩

/-- Cell `N = 1000000; speed = []`. -/
def cellSetup (s : PyState) : PyState :=
  { s with N := 1000000, speed := [] }

/-- Cell `l1 = list(100*(np.random.random(N))+1)`. -/
def cellMakeList (u : ℕ → ℚ) (s : PyState) : PyState :=
  { s with l1 := dataGenerator u s.N }

/-- Cell `a1 = np.array(l1)`: np.array copies the list into a fresh
array, sharing no storage with `l1`. -/
def cellVectorize (s : PyState) : PyState :=
  { s with a1 := s.l1 }

/-- Cell `l2 = []`. -/
def cellBlankList (s : PyState) : PyState :=
  { s with l2 := [] }

/-- The timed for-loop cell: time, loop appending into the existing
`l2`, time, append the duration to `speed`. -/
def cellForLoop (lg : ℚ → ℚ) (t1 t2 : ℚ) (s : PyState) : Except PyError PyState :=
  (forLoopAppend lg s.l2 s.l1).map
    (fun r => { s with l2 := r, speed := s.speed ++ [t2 - t1] })

/-- The timed list-comprehension cell: time, rebind `l2` to the
comprehension result, time, append the duration to `speed`. -/
def cellComprehension (lg : ℚ → ℚ) (t1 t2 : ℚ) (s : PyState) : Except PyError PyState :=
  (comprehensionStrategy lg s.l1).map
    (fun r => { s with l2 := r, speed := s.speed ++ [t2 - t1] })

/-- The timed map cell: time, rebind `l2` to list(map(op1, l1)), time,
append the duration to `speed`. -/
def cellMapOp (lg : ℚ → ℚ) (t1 t2 : ℚ) (s : PyState) : Except PyError PyState :=
  (mapStrategy lg s.l1).map
    (fun r => { s with l2 := r, speed := s.speed ++ [t2 - t1] })

/-- The timed NumPy cell: time, `a2 = np.log10(a1)`, time, append the
duration to `speed`; np.log10 never raises. -/
def cellNumpy (lg : ℚ → ℚ) (t1 t2 : ℚ) (s : PyState) : PyState :=
  { s with a2 := npLog10 lg s.a1, speed := s.speed ++ [t2 - t1] }

/-- Cell `l3 = list(a2)`. -/
def cellListA2 (s : PyState) : PyState :=
  { s with l3 := s.a2 }

/-- The tail of the run after the map cell: the NumPy cell (which never
raises) followed by `l3 = list(a2)`. `clock k` is the value of the k-th
call to time.time() (two calls per timed strategy cell). -/
def afterMap (lg : ℚ → ℚ) (clock : ℕ → ℚ) (s3 : PyState) : Except PyError PyState :=
  .ok (cellListA2 (cellNumpy lg (clock 6) (clock 7) s3))

/-- The tail of the run after the comprehension cell: the map cell,
then the rest. -/
def afterComprehension (lg : ℚ → ℚ) (clock : ℕ → ℚ) (s2 : PyState) :
    Except PyError PyState :=
  Except.bind (cellMapOp lg (clock 4) (clock 5) s2) (afterMap lg clock)

/-- The tail of the run after the for-loop cell: the comprehension
cell, then the rest. -/
def afterForLoop (lg : ℚ → ℚ) (clock : ℕ → ℚ) (s1 : PyState) :
    Except PyError PyState :=
  Except.bind (cellComprehension lg (clock 2) (clock 3) s1) (afterComprehension lg clock)

/-- The timed portion of the notebook: the four strategy cells in
execution order followed by `l3 = list(a2)`, starting from the state
the setup cells produced; a raised exception aborts the remaining
cells. -/
def scriptTimed (lg : ℚ → ℚ) (clock : ℕ → ℚ) (s : PyState) : Except PyError PyState :=
  Except.bind (cellForLoop lg (clock 0) (clock 1) s) (afterForLoop lg clock)

/-- The whole notebook run in cell order: the setup cells followed by
the timed cells. -/
def fullScript (lg : ℚ → ℚ) (u : ℕ → ℚ) (clock : ℕ → ℚ) : Except PyError PyState :=
  scriptTimed lg clock
    (cellBlankList (cellVectorize (cellMakeList u (cellSetup PyState.init))))

/-! ### Helper lemmas -/

theorem pyMap_ok (lg : ℚ → ℚ) (l : List ℚ) (h : ∀ x ∈ l, 0 < x) :
    pyMap (mathLog10 lg) l = .ok (l.map lg) := by
  induction l with
  | nil => rfl
  | cons x xs ih =>
    have hx : 0 < x := h x (List.mem_cons_self x xs)
    have hxs : ∀ y ∈ xs, 0 < y := fun y hy => h y (List.mem_cons_of_mem x hy)
    simp [pyMap, mathLog10, not_le.mpr hx, ih hxs, Except.map]

theorem pyMap_error (lg : ℚ → ℚ) (l : List ℚ) (h : ∃ x ∈ l, x ≤ 0) :
    pyMap (mathLog10 lg) l = .error .valueError := by
  induction l with
  | nil => simp at h
  | cons x xs ih =>
    by_cases hx : x ≤ 0
    · simp [pyMap, mathLog10, hx]
    · obtain ⟨y, hy, hy0⟩ := h
      rcases List.mem_cons.mp hy with rfl | hyxs
      · exact absurd hy0 hx
      · simp [pyMap, mathLog10, hx, ih ⟨y, hyxs, hy0⟩, Except.map]

theorem forLoopAppend_ok (lg : ℚ → ℚ) (acc l : List ℚ) (h : ∀ x ∈ l, 0 < x) :
    forLoopAppend lg acc l = .ok (acc ++ l.map lg) := by
  induction l generalizing acc with
  | nil => simp [forLoopAppend]
  | cons x xs ih =>
    have hx : 0 < x := h x (List.mem_cons_self x xs)
    have hxs : ∀ y ∈ xs, 0 < y := fun y hy => h y (List.mem_cons_of_mem x hy)
    simp [forLoopAppend, mathLog10, not_le.mpr hx, ih (acc ++ [lg x]) hxs]

theorem forLoopAppend_error (lg : ℚ → ℚ) (acc l : List ℚ) (h : ∃ x ∈ l, x ≤ 0) :
    forLoopAppend lg acc l = .error .valueError := by
  induction l generalizing acc with
  | nil => simp at h
  | cons x xs ih =>
    by_cases hx : x ≤ 0
    · simp [forLoopAppend, mathLog10, hx]
    · obtain ⟨y, hy, hy0⟩ := h
      rcases List.mem_cons.mp hy with rfl | hyxs
      · exact absurd hy0 hx
      · simp [forLoopAppend, mathLog10, hx, ih (acc ++ [lg x]) ⟨y, hyxs, hy0⟩]

theorem forLoopAppend_ok_nil (lg : ℚ → ℚ) (l : List ℚ) (h : ∀ x ∈ l, 0 < x) :
    forLoopAppend lg [] l = .ok (l.map lg) := by
  have hh := forLoopAppend_ok lg [] l h
  rwa [List.nil_append] at hh

theorem mapStrategy_ok (lg : ℚ → ℚ) (l : List ℚ) (h : ∀ x ∈ l, 0 < x) :
    mapStrategy lg l = .ok (l.map lg) := by
  have : op1 lg = mathLog10 lg := rfl
  rw [mapStrategy, this]
  exact pyMap_ok lg l h

theorem mapStrategy_error (lg : ℚ → ℚ) (l : List ℚ) (h : ∃ x ∈ l, x ≤ 0) :
    mapStrategy lg l = .error .valueError := by
  have : op1 lg = mathLog10 lg := rfl
  rw [mapStrategy, this]
  exact pyMap_error lg l h

theorem pyRangeQ_pos (x : ℚ) (hx : x ∈ pyRangeQ) : 0 < x := by
  rw [pyRangeQ] at hx
  obtain ⟨i, hi, rfl⟩ := List.mem_map.mp hx
  rw [pyRange] at hi
  have h1 : 1 ≤ i := (List.mem_range'_1.mp hi).1
  exact_mod_cast Nat.lt_of_lt_of_le Nat.zero_lt_one h1

theorem pyRangeQ_length : pyRangeQ.length = 1000000 := by
  rw [pyRangeQ, pyRange]
  simp only [List.length_map]
  norm_num [List.length_range']

theorem comprehensionStrategy_eq (lg : ℚ → ℚ) (l1 : List ℚ) :
    comprehensionStrategy lg l1 = .ok (pyRangeQ.map lg) := by
  rw [comprehensionStrategy]
  exact pyMap_ok lg _ pyRangeQ_pos

theorem comprehensionStrategy_length (lg : ℚ → ℚ) (l1 : List ℚ) :
    Except.map List.length (comprehensionStrategy lg l1) = .ok 1000000 := by
  rw [comprehensionStrategy_eq]
  simp only [Except.map, List.length_map, pyRangeQ_length]

theorem numpyStrategy_pos (lg : ℚ → ℚ) (l : List ℚ) (h : ∀ x ∈ l, 0 < x) :
    numpyStrategy lg l = (l.map lg).map NpVal.finite := by
  rw [numpyStrategy, npLog10, List.map_map]
  refine List.map_congr_left fun x hx => ?_
  have h0 : 0 < x := h x hx
  simp [npLog10Elem, not_lt.mpr h0.le, ne_of_gt h0, Function.comp]

theorem dataGenerator_bounds (u : ℕ → ℚ) (n : ℕ) (h : ∀ i, 0 ≤ u i ∧ u i < 1) :
    ∀ x ∈ dataGenerator u n, 1 ≤ x ∧ x < 101 := by
  intro x hx
  obtain ⟨y, hy, rfl⟩ := List.mem_map.mp hx
  obtain ⟨i, _, rfl⟩ := List.mem_map.mp hy
  obtain ⟨h0, h1⟩ := h i
  constructor <;> nlinarith

theorem dataGenerator_pos (u : ℕ → ℚ) (n : ℕ) (h : ∀ i, 0 ≤ u i ∧ u i < 1) :
    ∀ x ∈ dataGenerator u n, 0 < x := by
  intro x hx
  have := (dataGenerator_bounds u n h x hx).1
  linarith

/-! ### Claim theorems -/

/-- C1 counterexample: on the Sample Set [4], the comprehension
strategy does not produce the same Result Set as the for-loop strategy
(it computes over range(1,1000001) instead, so its result has a million
elements while the for-loop result has one). -/
theorem C1_counterexample :
    comprehensionStrategy id [(4 : ℚ)] ≠ forLoopAppend id [] [(4 : ℚ)] := by
  intro h
  have hf : forLoopAppend id [] [(4 : ℚ)] = .ok [(4 : ℚ)] := by
    simpa using forLoopAppend_ok id [] [(4 : ℚ)] (by norm_num)
  have hl := comprehensionStrategy_length id [(4 : ℚ)]
  rw [h, hf] at hl
  simp [Except.map] at hl

/-- C1 (amended): for every strictly positive Sample Set, the for-loop,
map, and NumPy strategies produce elementwise equal Result Sets (all
three equal the mapped Sample Set); the comprehension strategy instead
produces log10 of the fixed integer range 1..1000000, independent of
the Sample Set. -/
theorem C1_strategies (lg : ℚ → ℚ) (l1 : List ℚ) (h : ∀ x ∈ l1, 0 < x) :
    forLoopAppend lg [] l1 = .ok (l1.map lg)
    ∧ mapStrategy lg l1 = .ok (l1.map lg)
    ∧ numpyStrategy lg l1 = (l1.map lg).map NpVal.finite
    ∧ comprehensionStrategy lg l1 = .ok (pyRangeQ.map lg) := by
  refine ⟨?_, mapStrategy_ok lg l1 h, numpyStrategy_pos lg l1 h,
    comprehensionStrategy_eq lg l1⟩
  simpa using forLoopAppend_ok lg [] l1 h

/-- Witness for C1_strategies at lg = id and Sample Set [4]. -/
theorem C1_witness :
    (∀ x ∈ [(4 : ℚ)], 0 < x)
    ∧ (forLoopAppend id [] [(4 : ℚ)] = .ok ([(4 : ℚ)].map id)
       ∧ mapStrategy id [(4 : ℚ)] = .ok ([(4 : ℚ)].map id)
       ∧ numpyStrategy id [(4 : ℚ)] = ([(4 : ℚ)].map id).map NpVal.finite
       ∧ comprehensionStrategy id [(4 : ℚ)] = .ok (pyRangeQ.map id)) :=
  ⟨by norm_num, C1_strategies id [(4 : ℚ)] (by norm_num)⟩

/-- C2: the list-comprehension strategy computes log10 over the
generated range 1..1000000, so it returns the identical Result Set for
every pair of Sample Sets, namely the log10 values of [1, ..., 1000000]. -/
theorem C2_comprehension_ignores_sample (lg : ℚ → ℚ) (l1 l1' : List ℚ) :
    comprehensionStrategy lg l1 = comprehensionStrategy lg l1'
    ∧ comprehensionStrategy lg l1 = .ok (pyRangeQ.map lg)
    ∧ pyRangeQ = (pyRange 1 1000001).map (fun i : ℕ => (i : ℚ)) :=
  ⟨rfl, comprehensionStrategy_eq lg l1, rfl⟩

/-- C3 counterexample: on the Sample Set [-5], the NumPy strategy does
not fail: it completes, silently producing NaN; the comprehension
strategy also completes normally, since it never reads the Sample Set. -/
theorem C3_counterexample :
    numpyStrategy id [(-5 : ℚ)] = [NpVal.nan]
    ∧ comprehensionStrategy id [(-5 : ℚ)] ≠ .error PyError.valueError := by
  constructor
  · norm_num [numpyStrategy, npLog10, npLog10Elem]
  · rw [comprehensionStrategy_eq]
    simp

/-- C3 (amended): on a Sample Set containing a non-positive value, the
for-loop and map strategies fail with a domain error (ValueError) that
propagates; the comprehension strategy completes normally because it
reads the fixed integer range rather than the Sample Set; the NumPy
strategy completes normally, silently producing NaN for each negative
element and -inf for each zero element. -/
theorem C3_error_behaviour (lg : ℚ → ℚ) (l1 : List ℚ) (h : ∃ x ∈ l1, x ≤ 0) :
    forLoopAppend lg [] l1 = .error .valueError
    ∧ mapStrategy lg l1 = .error .valueError
    ∧ comprehensionStrategy lg l1 = .ok (pyRangeQ.map lg)
    ∧ (∀ x ∈ l1, x < 0 → NpVal.nan ∈ numpyStrategy lg l1)
    ∧ (∀ x ∈ l1, x = 0 → NpVal.negInf ∈ numpyStrategy lg l1) := by
  refine ⟨forLoopAppend_error lg [] l1 h, mapStrategy_error lg l1 h,
    comprehensionStrategy_eq lg l1, ?_, ?_⟩
  · intro x hx hneg
    rw [numpyStrategy, npLog10]
    exact List.mem_map.mpr ⟨x, hx, by simp [npLog10Elem, hneg]⟩
  · intro x hx h0
    rw [numpyStrategy, npLog10]
    exact List.mem_map.mpr ⟨x, hx, by subst h0; norm_num [npLog10Elem]⟩

/-- Witness for C3_error_behaviour at lg = id and Sample Set [-5]. -/
theorem C3_witness :
    (∃ x ∈ [(-5 : ℚ)], x ≤ 0)
    ∧ (forLoopAppend id [] [(-5 : ℚ)] = .error .valueError
       ∧ mapStrategy id [(-5 : ℚ)] = .error .valueError
       ∧ comprehensionStrategy id [(-5 : ℚ)] = .ok (pyRangeQ.map id)
       ∧ (∀ x ∈ [(-5 : ℚ)], x < 0 → NpVal.nan ∈ numpyStrategy id [(-5 : ℚ)])
       ∧ (∀ x ∈ [(-5 : ℚ)], x = 0 → NpVal.negInf ∈ numpyStrategy id [(-5 : ℚ)])) :=
  ⟨⟨-5, by simp, by norm_num⟩,
    C3_error_behaviour id [(-5 : ℚ)] ⟨-5, by simp, by norm_num⟩⟩

/-- C4: the Data Generator invoked with N = 1000000 over the unit
uniform stream returns exactly 1000000 values, each in [1, 101). -/
theorem C4_dataGenerator_spec (u : ℕ → ℚ) (h : ∀ i, 0 ≤ u i ∧ u i < 1) :
    (dataGenerator u 1000000).length = 1000000
    ∧ ∀ x ∈ dataGenerator u 1000000, 1 ≤ x ∧ x < 101 := by
  refine ⟨?_, dataGenerator_bounds u 1000000 h⟩
  simp [dataGenerator, npRandomRandom]

/-- Witness for C4_dataGenerator_spec at the constant stream 1/2. -/
theorem C4_witness :
    (∀ i : ℕ, 0 ≤ (fun _ : ℕ => (1 : ℚ)/2) i ∧ (fun _ : ℕ => (1 : ℚ)/2) i < 1)
    ∧ ((dataGenerator (fun _ : ℕ => (1 : ℚ)/2) 1000000).length = 1000000
       ∧ ∀ x ∈ dataGenerator (fun _ : ℕ => (1 : ℚ)/2) 1000000, 1 ≤ x ∧ x < 101) :=
  ⟨fun _ => by norm_num, C4_dataGenerator_spec _ (fun _ => by norm_num)⟩

/-- C5 counterexample: the for-loop strategy appends into the existing
output list, so running it a second time on the same Sample Set [4],
starting from the output list the first run left behind, yields [4, 4]
instead of the first run's [4]. -/
theorem C5_counterexample :
    forLoopAppend id [] [(4 : ℚ)] = .ok [(4 : ℚ)]
    ∧ forLoopAppend id [(4 : ℚ)] [(4 : ℚ)] = .ok [(4 : ℚ), (4 : ℚ)]
    ∧ [(4 : ℚ), (4 : ℚ)] ≠ [(4 : ℚ)] := by
  refine ⟨?_, ?_, by simp⟩
  · simpa using forLoopAppend_ok id [] [(4 : ℚ)] (by norm_num)
  · simpa using forLoopAppend_ok id [(4 : ℚ)] [(4 : ℚ)] (by norm_num)

/-- C5 (amended): the comprehension, map, and NumPy strategies are pure
functions of the (unmutated) inputs they read, so a second run yields
the identical Result Set whatever else the interpreter state holds; the
for-loop strategy appends to the existing output list, so a second run
started from the first run's output yields that output followed by the
mapped values again, which coincides with the first run's output only
on the empty Sample Set (the notebook only gets the mapped Sample Set
because it empties l2 right before its single for-loop run). -/
theorem C5_rerun_behaviour (lg : ℚ → ℚ) (l1 : List ℚ) (h : ∀ x ∈ l1, 0 < x) :
    (∀ (s s' : PyState) (t1 t2 t1' t2' : ℚ), s.l1 = s'.l1 →
      Except.map PyState.l2 (cellMapOp lg t1 t2 s)
        = Except.map PyState.l2 (cellMapOp lg t1' t2' s'))
    ∧ (∀ (s s' : PyState) (t1 t2 t1' t2' : ℚ),
      Except.map PyState.l2 (cellComprehension lg t1 t2 s)
        = Except.map PyState.l2 (cellComprehension lg t1' t2' s'))
    ∧ (∀ (s s' : PyState) (t1 t2 t1' t2' : ℚ), s.a1 = s'.a1 →
      (cellNumpy lg t1 t2 s).a2 = (cellNumpy lg t1' t2' s').a2)
    ∧ forLoopAppend lg [] l1 = .ok (l1.map lg)
    ∧ forLoopAppend lg (l1.map lg) l1 = .ok (l1.map lg ++ l1.map lg)
    ∧ (forLoopAppend lg (l1.map lg) l1 = forLoopAppend lg [] l1 ↔ l1 = []) := by
  have h0 : forLoopAppend lg [] l1 = .ok (l1.map lg) := by
    simpa using forLoopAppend_ok lg [] l1 h
  have hm := forLoopAppend_ok lg (l1.map lg) l1 h
  refine ⟨?_, ?_, ?_, h0, hm, ?_⟩
  · intro s s' t1 t2 t1' t2' hl
    cases hx : mapStrategy lg s'.l1 <;>
      simp [cellMapOp, Except.map, hl, hx]
  · intro s s' t1 t2 t1' t2'
    rw [cellComprehension, cellComprehension,
      comprehensionStrategy_eq, comprehensionStrategy_eq]
    rfl
  · intro s s' t1 t2 t1' t2' ha
    simp [cellNumpy, ha]
  · rw [hm, h0]
    constructor
    · intro heq
      have h2 := Except.ok.inj heq
      have hlen := congrArg List.length h2
      rw [List.length_append] at hlen
      have hz : (l1.map lg).length = 0 := by omega
      rw [List.length_map] at hz
      exact List.length_eq_zero.mp hz
    · rintro rfl
      simp

/-- Witness for C5_rerun_behaviour at lg = id and the empty Sample Set. -/
theorem C5_witness :
    (∀ x ∈ ([] : List ℚ), 0 < x)
    ∧ ((∀ (s s' : PyState) (t1 t2 t1' t2' : ℚ), s.l1 = s'.l1 →
        Except.map PyState.l2 (cellMapOp id t1 t2 s)
          = Except.map PyState.l2 (cellMapOp id t1' t2' s'))
      ∧ (∀ (s s' : PyState) (t1 t2 t1' t2' : ℚ),
        Except.map PyState.l2 (cellComprehension id t1 t2 s)
          = Except.map PyState.l2 (cellComprehension id t1' t2' s'))
      ∧ (∀ (s s' : PyState) (t1 t2 t1' t2' : ℚ), s.a1 = s'.a1 →
        (cellNumpy id t1 t2 s).a2 = (cellNumpy id t1' t2' s').a2)
      ∧ forLoopAppend id [] ([] : List ℚ) = .ok (([] : List ℚ).map id)
      ∧ forLoopAppend id (([] : List ℚ).map id) ([] : List ℚ)
          = .ok (([] : List ℚ).map id ++ ([] : List ℚ).map id)
      ∧ (forLoopAppend id (([] : List ℚ).map id) ([] : List ℚ)
          = forLoopAppend id [] ([] : List ℚ) ↔ ([] : List ℚ) = [])) :=
  ⟨by simp, C5_rerun_behaviour id [] (by simp)⟩

/-- C6 counterexample: invoked on the empty Sample Set, the
comprehension strategy does not yield an empty Result Set: it yields
the 1000000 log10 values of the hard-coded range(1,1000001). -/
theorem C6_counterexample :
    comprehensionStrategy id [] ≠ .ok ([] : List ℚ)
    ∧ Except.map List.length (comprehensionStrategy id []) = .ok 1000000 := by
  constructor
  · rw [comprehensionStrategy_eq]
    intro hcontra
    have h2 := Except.ok.inj hcontra
    have hlen := congrArg List.length h2
    rw [List.length_map, pyRangeQ_length, List.length_nil] at hlen
    exact absurd hlen (by norm_num)
  · exact comprehensionStrategy_length id []

/-- C6 (amended): on the empty Sample Set, the for-loop, map, and NumPy
strategies complete normally with an empty Result Set, and the timed
runs record an elapsed duration; the comprehension strategy also
completes normally and records a duration, but its Result Set has the
1000000 elements of the hard-coded range, not zero. -/
theorem C6_empty_sample (lg : ℚ → ℚ) (t1 t2 : ℚ) (speed : List ℚ) :
    timedRun t1 t2 speed (forLoopAppend lg [] []) = (.ok [], speed ++ [t2 - t1])
    ∧ timedRun t1 t2 speed (mapStrategy lg []) = (.ok [], speed ++ [t2 - t1])
    ∧ numpyStrategy lg [] = []
    ∧ Except.map List.length (comprehensionStrategy lg []) = .ok 1000000 :=
  ⟨rfl, rfl, rfl, comprehensionStrategy_length lg []⟩

/-- C9: when the wrapped computation raises, the timing pattern around
it propagates the error unchanged and appends no duration to speed. -/
theorem C9_timing_error_propagation {α : Type} (t1 t2 : ℚ) (speed : List ℚ)
    (comp : Except PyError α) (e : PyError) (h : comp = .error e) :
    timedRun t1 t2 speed comp = (.error e, speed) := by
  rw [h]; rfl

/-- Witness for C9_timing_error_propagation: the map strategy on [-5]
raises, and its timed run returns the error with speed unchanged. -/
theorem C9_witness :
    mapStrategy id [(-5 : ℚ)] = .error PyError.valueError
    ∧ timedRun 0 1 [] (mapStrategy id [(-5 : ℚ)]) = (.error PyError.valueError, []) := by
  have h : mapStrategy id [(-5 : ℚ)] = .error PyError.valueError := by
    norm_num [mapStrategy, pyMap, op1, mathLog10]
  exact ⟨h, C9_timing_error_propagation 0 1 [] _ _ h⟩

/-- C10: the for-loop strategy appends to the pre-existing output list:
after a successful run its output is the prior contents followed by the
mapped Sample Set in order, and it equals exactly the mapped Sample Set
if and only if the output list was empty beforehand. -/
theorem C10_append_semantics (lg : ℚ → ℚ) (l2 l1 : List ℚ) (h : ∀ x ∈ l1, 0 < x) :
    forLoopAppend lg l2 l1 = .ok (l2 ++ l1.map lg)
    ∧ (forLoopAppend lg l2 l1 = .ok (l1.map lg) ↔ l2 = []) := by
  have hok := forLoopAppend_ok lg l2 l1 h
  refine ⟨hok, ?_⟩
  rw [hok]
  constructor
  · intro heq
    have h2 := Except.ok.inj heq
    have hlen := congrArg List.length h2
    rw [List.length_append] at hlen
    have hz : l2.length = 0 := by omega
    exact List.length_eq_zero.mp hz
  · rintro rfl
    simp

/-- Witness for C10_append_semantics at lg = id, prior output [1],
Sample Set [4]. -/
theorem C10_witness :
    (∀ x ∈ [(4 : ℚ)], 0 < x)
    ∧ (forLoopAppend id [(1 : ℚ)] [(4 : ℚ)] = .ok ([(1 : ℚ)] ++ [(4 : ℚ)].map id)
       ∧ (forLoopAppend id [(1 : ℚ)] [(4 : ℚ)] = .ok ([(4 : ℚ)].map id)
          ↔ [(1 : ℚ)] = ([] : List ℚ))) :=
  ⟨by norm_num, C10_append_semantics id [(1 : ℚ)] [(4 : ℚ)] (by norm_num)⟩


/-! ### Reduction lemmas for states given by explicit constructors.
All are definitional at abstract arguments; they let later proofs
rewrite syntactically without forcing evaluation of the million-element
lists hiding inside concrete states. -/

theorem exceptMap_ok {α β : Type} (f : α → β) (a : α) :
    Except.map f (.ok a : Except PyError α) = .ok (f a) := rfl

theorem exceptBind_ok {α β : Type} (a : α) (f : α → Except PyError β) :
    Except.bind (.ok a) f = f a := rfl

theorem exceptBind_error {α β : Type} (e : PyError) (f : α → Except PyError β) :
    Except.bind (.error e) f = (.error e : Except PyError β) := rfl

theorem exceptMap_error {α β : Type} (f : α → β) (e : PyError) :
    Except.map f (.error e : Except PyError α) = .error e := rfl

theorem pyState_speed_mk (n sp l1 a1 l2 a2 l3) :
    (PyState.mk n sp l1 a1 l2 a2 l3).speed = sp := rfl

theorem pyState_l1_mk (n sp l1 a1 l2 a2 l3) :
    (PyState.mk n sp l1 a1 l2 a2 l3).l1 = l1 := rfl

theorem pyState_init_mk : PyState.init = PyState.mk 0 [] [] [] [] [] [] := rfl

theorem cellSetup_mk (n sp l1 a1 l2 a2 l3) :
    cellSetup (PyState.mk n sp l1 a1 l2 a2 l3) = PyState.mk 1000000 [] l1 a1 l2 a2 l3 := rfl

theorem cellMakeList_mk (u : ℕ → ℚ) (n sp l1 a1 l2 a2 l3) :
    cellMakeList u (PyState.mk n sp l1 a1 l2 a2 l3)
      = PyState.mk n sp (dataGenerator u n) a1 l2 a2 l3 := rfl

theorem cellVectorize_mk (n sp l1 a1 l2 a2 l3) :
    cellVectorize (PyState.mk n sp l1 a1 l2 a2 l3)
      = PyState.mk n sp l1 l1 l2 a2 l3 := rfl

theorem cellBlankList_mk (n sp l1 a1 l2 a2 l3) :
    cellBlankList (PyState.mk n sp l1 a1 l2 a2 l3)
      = PyState.mk n sp l1 a1 [] a2 l3 := rfl

theorem cellForLoop_mk (lg : ℚ → ℚ) (t1 t2 : ℚ) (n sp l1 a1 l2 a2 l3) :
    cellForLoop lg t1 t2 (PyState.mk n sp l1 a1 l2 a2 l3)
      = (forLoopAppend lg l2 l1).map
          (fun r => PyState.mk n (sp ++ [t2 - t1]) l1 a1 r a2 l3) := rfl

theorem cellComprehension_mk (lg : ℚ → ℚ) (t1 t2 : ℚ) (n sp l1 a1 l2 a2 l3) :
    cellComprehension lg t1 t2 (PyState.mk n sp l1 a1 l2 a2 l3)
      = (comprehensionStrategy lg l1).map
          (fun r => PyState.mk n (sp ++ [t2 - t1]) l1 a1 r a2 l3) := rfl

theorem cellMapOp_mk (lg : ℚ → ℚ) (t1 t2 : ℚ) (n sp l1 a1 l2 a2 l3) :
    cellMapOp lg t1 t2 (PyState.mk n sp l1 a1 l2 a2 l3)
      = (mapStrategy lg l1).map
          (fun r => PyState.mk n (sp ++ [t2 - t1]) l1 a1 r a2 l3) := rfl

theorem cellNumpy_mk (lg : ℚ → ℚ) (t1 t2 : ℚ) (n sp l1 a1 l2 a2 l3) :
    cellNumpy lg t1 t2 (PyState.mk n sp l1 a1 l2 a2 l3)
      = PyState.mk n (sp ++ [t2 - t1]) l1 a1 l2 (npLog10 lg a1) l3 := rfl

theorem cellListA2_mk (n sp l1 a1 l2 a2 l3) :
    cellListA2 (PyState.mk n sp l1 a1 l2 a2 l3)
      = PyState.mk n sp l1 a1 l2 a2 a2 := rfl

theorem cellForLoop_mk_ok (lg : ℚ → ℚ) (t1 t2 : ℚ) (n sp l1 a1 l2 a2 l3)
    (F : List ℚ) (hfl : forLoopAppend lg l2 l1 = .ok F) :
    cellForLoop lg t1 t2 (PyState.mk n sp l1 a1 l2 a2 l3)
      = .ok (PyState.mk n (sp ++ [t2 - t1]) l1 a1 F a2 l3) := by
  rw [cellForLoop_mk lg t1 t2 n sp l1 a1 l2 a2 l3, hfl]
  rfl

theorem cellComprehension_mk_ok (lg : ℚ → ℚ) (t1 t2 : ℚ) (n sp l1 a1 l2 a2 l3)
    (C : List ℚ) (hcomp : comprehensionStrategy lg l1 = .ok C) :
    cellComprehension lg t1 t2 (PyState.mk n sp l1 a1 l2 a2 l3)
      = .ok (PyState.mk n (sp ++ [t2 - t1]) l1 a1 C a2 l3) := by
  rw [cellComprehension_mk lg t1 t2 n sp l1 a1 l2 a2 l3, hcomp]
  rfl

theorem cellMapOp_mk_ok (lg : ℚ → ℚ) (t1 t2 : ℚ) (n sp l1 a1 l2 a2 l3)
    (M : List ℚ) (hmap : mapStrategy lg l1 = .ok M) :
    cellMapOp lg t1 t2 (PyState.mk n sp l1 a1 l2 a2 l3)
      = .ok (PyState.mk n (sp ++ [t2 - t1]) l1 a1 M a2 l3) := by
  rw [cellMapOp_mk lg t1 t2 n sp l1 a1 l2 a2 l3, hmap]
  rfl

/-- Behaviour of the timed cells on an arbitrary state, abstracting
over what each strategy returns: when the three fallible strategies
each return a value, the run succeeds, appends the four durations to
speed in execution order, leaves l1 and a1 untouched, leaves l2 holding
the map strategy result (the last write), and stores the NumPy result
in a2 and l3. -/
theorem scriptTimed_ok (lg : ℚ → ℚ) (clock : ℕ → ℚ)
    (n : ℕ) (sp l1v a1v l2v : List ℚ) (a2v l3v : List NpVal) (F C M : List ℚ)
    (hfl : forLoopAppend lg l2v l1v = .ok F)
    (hcomp : comprehensionStrategy lg l1v = .ok C)
    (hmap : mapStrategy lg l1v = .ok M) :
    scriptTimed lg clock (PyState.mk n sp l1v a1v l2v a2v l3v)
      = .ok (PyState.mk n
          ((((sp ++ [clock 1 - clock 0]) ++ [clock 3 - clock 2])
            ++ [clock 5 - clock 4]) ++ [clock 7 - clock 6])
          l1v a1v M (npLog10 lg a1v) (npLog10 lg a1v)) := by
  unfold scriptTimed
  rw [cellForLoop_mk_ok lg (clock 0) (clock 1) n sp l1v a1v l2v a2v l3v F hfl]
  rw [exceptBind_ok]
  unfold afterForLoop
  rw [cellComprehension_mk_ok lg (clock 2) (clock 3) n (sp ++ [clock 1 - clock 0])
    l1v a1v F a2v l3v C hcomp]
  rw [exceptBind_ok]
  unfold afterComprehension
  rw [cellMapOp_mk_ok lg (clock 4) (clock 5) n
    ((sp ++ [clock 1 - clock 0]) ++ [clock 3 - clock 2]) l1v a1v C a2v l3v M hmap]
  rw [exceptBind_ok]
  unfold afterMap
  rw [cellNumpy_mk, cellListA2_mk]

/-- Witness for scriptTimed_ok on the empty sample and empty prior
state at lg = id and a zero clock. -/
theorem scriptTimed_ok_witness :
    forLoopAppend id [] [] = .ok []
    ∧ comprehensionStrategy id [] = .ok (pyRangeQ.map id)
    ∧ mapStrategy id [] = .ok []
    ∧ scriptTimed id (fun _ : ℕ => (0 : ℚ)) (PyState.mk 0 [] [] [] [] [] [])
      = .ok (PyState.mk 0
          (((([] ++ [(0 : ℚ) - 0]) ++ [(0 : ℚ) - 0]) ++ [(0 : ℚ) - 0]) ++ [(0 : ℚ) - 0])
          [] [] [] (npLog10 id []) (npLog10 id [])) :=
  ⟨rfl, comprehensionStrategy_eq id [], rfl,
    scriptTimed_ok id (fun _ => 0) 0 [] [] [] [] [] [] [] (pyRangeQ.map id) []
      rfl (comprehensionStrategy_eq id []) rfl⟩

/-- Characterization of a full notebook run over positive random data:
every strategy succeeds, the four durations land in speed in execution
order, and the final variable values are as computed. -/
theorem fullScript_ok (lg : ℚ → ℚ) (u : ℕ → ℚ) (clock : ℕ → ℚ)
    (hu : ∀ i, 0 ≤ u i ∧ u i < 1) :
    fullScript lg u clock = .ok
      (PyState.mk 1000000
        [clock 1 - clock 0, clock 3 - clock 2, clock 5 - clock 4, clock 7 - clock 6]
        (dataGenerator u 1000000) (dataGenerator u 1000000)
        ((dataGenerator u 1000000).map lg)
        (npLog10 lg (dataGenerator u 1000000))
        (npLog10 lg (dataGenerator u 1000000))) := by
  have hpos := dataGenerator_pos u 1000000 hu
  have h1 : forLoopAppend lg [] (dataGenerator u 1000000)
      = .ok ((dataGenerator u 1000000).map lg) :=
    forLoopAppend_ok_nil lg _ hpos
  have h2 := comprehensionStrategy_eq lg (dataGenerator u 1000000)
  have h3 : mapStrategy lg (dataGenerator u 1000000)
      = .ok ((dataGenerator u 1000000).map lg) := mapStrategy_ok lg _ hpos
  have hstart : cellBlankList (cellVectorize (cellMakeList u (cellSetup PyState.init)))
      = PyState.mk 1000000 [] (dataGenerator u 1000000) (dataGenerator u 1000000)
          [] [] [] := by
    simp only [pyState_init_mk, cellSetup_mk, cellMakeList_mk, cellVectorize_mk,
      cellBlankList_mk]
  have hsp : (((([] : List ℚ) ++ [clock 1 - clock 0]) ++ [clock 3 - clock 2])
      ++ [clock 5 - clock 4]) ++ [clock 7 - clock 6]
      = [clock 1 - clock 0, clock 3 - clock 2, clock 5 - clock 4, clock 7 - clock 6] := by
    simp
  unfold fullScript
  rw [hstart]
  rw [scriptTimed_ok lg clock 1000000 [] (dataGenerator u 1000000)
    (dataGenerator u 1000000) [] [] [] ((dataGenerator u 1000000).map lg)
    (pyRangeQ.map lg) ((dataGenerator u 1000000).map lg) h1 h2 h3]
  rw [hsp]

/-- C7: after the full script runs over positive random data, the speed
list holds exactly four measurements, one per strategy, in execution
order (for-loop, comprehension, map, NumPy), and each is non-negative
whenever each strategy's end timestamp is at least its start timestamp. -/
theorem C7_duration_record (lg : ℚ → ℚ) (u : ℕ → ℚ) (clock : ℕ → ℚ)
    (hu : ∀ i, 0 ≤ u i ∧ u i < 1) (hc : ∀ k, clock (2 * k) ≤ clock (2 * k + 1)) :
    Except.map PyState.speed (fullScript lg u clock)
      = .ok [clock 1 - clock 0, clock 3 - clock 2, clock 5 - clock 4, clock 7 - clock 6]
    ∧ ∀ s, fullScript lg u clock = .ok s →
        s.speed.length = 4 ∧ ∀ d ∈ s.speed, 0 ≤ d := by
  have hfs := fullScript_ok lg u clock hu
  have hc0 : clock 0 ≤ clock 1 := by have := hc 0; norm_num at this; exact this
  have hc1 : clock 2 ≤ clock 3 := by have := hc 1; norm_num at this; exact this
  have hc2 : clock 4 ≤ clock 5 := by have := hc 2; norm_num at this; exact this
  have hc3 : clock 6 ≤ clock 7 := by have := hc 3; norm_num at this; exact this
  constructor
  · rw [hfs, exceptMap_ok, pyState_speed_mk]
  · intro s hs
    rw [hfs] at hs
    rw [← Except.ok.inj hs]
    constructor
    · rw [pyState_speed_mk]
      rfl
    · intro d hd
      rw [pyState_speed_mk] at hd
      simp only [List.mem_cons, List.not_mem_nil, or_false] at hd
      rcases hd with rfl | rfl | rfl | rfl
      · linarith
      · linarith
      · linarith
      · linarith

/-- Witness for C7_duration_record at lg = id, the constant random
stream 1/2, and the clock reading k at its k-th call. -/
theorem C7_witness :
    (∀ i : ℕ, 0 ≤ (fun _ : ℕ => (1 : ℚ)/2) i ∧ (fun _ : ℕ => (1 : ℚ)/2) i < 1)
    ∧ (∀ k : ℕ, (fun j : ℕ => (j : ℚ)) (2 * k) ≤ (fun j : ℕ => (j : ℚ)) (2 * k + 1))
    ∧ (Except.map PyState.speed
        (fullScript id (fun _ : ℕ => (1 : ℚ)/2) (fun j : ℕ => (j : ℚ)))
        = .ok [((1 : ℕ) : ℚ) - ((0 : ℕ) : ℚ), ((3 : ℕ) : ℚ) - ((2 : ℕ) : ℚ),
            ((5 : ℕ) : ℚ) - ((4 : ℕ) : ℚ), ((7 : ℕ) : ℚ) - ((6 : ℕ) : ℚ)]
      ∧ ∀ s, fullScript id (fun _ : ℕ => (1 : ℚ)/2) (fun j : ℕ => (j : ℚ)) = .ok s →
          s.speed.length = 4 ∧ ∀ d ∈ s.speed, 0 ≤ d) := by
  have hu : ∀ i : ℕ, 0 ≤ (fun _ : ℕ => (1 : ℚ)/2) i ∧ (fun _ : ℕ => (1 : ℚ)/2) i < 1 :=
    fun _ => by norm_num
  have hc : ∀ k : ℕ, (fun j : ℕ => (j : ℚ)) (2 * k) ≤ (fun j : ℕ => (j : ℚ)) (2 * k + 1) := by
    intro k
    push_cast
    linarith
  exact ⟨hu, hc, C7_duration_record id (fun _ : ℕ => (1 : ℚ)/2) (fun j : ℕ => (j : ℚ)) hu hc⟩

/-- C8: the Sample Set l1 is written once by its creating cell and read
only afterward: each of the four strategy cells leaves l1 exactly as it
found it, and after the whole script runs over positive random data the
final l1 is still exactly the generated data. -/
theorem C8_sample_set_immutable (lg : ℚ → ℚ) (u : ℕ → ℚ) (clock : ℕ → ℚ)
    (t1 t2 : ℚ) (hu : ∀ i, 0 ≤ u i ∧ u i < 1) :
    (∀ s s' : PyState, cellForLoop lg t1 t2 s = .ok s' → s'.l1 = s.l1)
    ∧ (∀ s s' : PyState, cellComprehension lg t1 t2 s = .ok s' → s'.l1 = s.l1)
    ∧ (∀ s s' : PyState, cellMapOp lg t1 t2 s = .ok s' → s'.l1 = s.l1)
    ∧ (∀ s : PyState, (cellNumpy lg t1 t2 s).l1 = s.l1)
    ∧ (∀ s' : PyState, fullScript lg u clock = .ok s' →
        s'.l1 = dataGenerator u 1000000) := by
  refine ⟨?_, ?_, ?_, ?_, ?_⟩
  · intro s s' h
    obtain ⟨n, sp, l1v, a1v, l2v, a2v, l3v⟩ := s
    rw [cellForLoop_mk] at h
    cases hx : forLoopAppend lg l2v l1v with
    | error e =>
      rw [hx, exceptMap_error] at h
      exact absurd h (fun hc => Except.noConfusion hc)
    | ok F =>
      rw [hx, exceptMap_ok] at h
      rw [← Except.ok.inj h]
  · intro s s' h
    obtain ⟨n, sp, l1v, a1v, l2v, a2v, l3v⟩ := s
    rw [cellComprehension_mk] at h
    cases hx : comprehensionStrategy lg l1v with
    | error e =>
      rw [hx, exceptMap_error] at h
      exact absurd h (fun hc => Except.noConfusion hc)
    | ok C =>
      rw [hx, exceptMap_ok] at h
      rw [← Except.ok.inj h]
  · intro s s' h
    obtain ⟨n, sp, l1v, a1v, l2v, a2v, l3v⟩ := s
    rw [cellMapOp_mk] at h
    cases hx : mapStrategy lg l1v with
    | error e =>
      rw [hx, exceptMap_error] at h
      exact absurd h (fun hc => Except.noConfusion hc)
    | ok M =>
      rw [hx, exceptMap_ok] at h
      rw [← Except.ok.inj h]
  · intro s
    obtain ⟨n, sp, l1v, a1v, l2v, a2v, l3v⟩ := s
    rw [cellNumpy_mk]
  · intro s' h
    rw [fullScript_ok lg u clock hu] at h
    rw [← Except.ok.inj h]

/-- Witness for C8_sample_set_immutable at lg = id, the constant random
stream 1/2, the clock reading k at its k-th call, and timestamps 0, 1. -/
theorem C8_witness :
    (∀ i : ℕ, 0 ≤ (fun _ : ℕ => (1 : ℚ)/2) i ∧ (fun _ : ℕ => (1 : ℚ)/2) i < 1)
    ∧ ((∀ s s' : PyState, cellForLoop id 0 1 s = .ok s' → s'.l1 = s.l1)
      ∧ (∀ s s' : PyState, cellComprehension id 0 1 s = .ok s' → s'.l1 = s.l1)
      ∧ (∀ s s' : PyState, cellMapOp id 0 1 s = .ok s' → s'.l1 = s.l1)
      ∧ (∀ s : PyState, (cellNumpy id 0 1 s).l1 = s.l1)
      ∧ (∀ s' : PyState, fullScript id (fun _ : ℕ => (1 : ℚ)/2) (fun j : ℕ => (j : ℚ)) = .ok s' →
          s'.l1 = dataGenerator (fun _ : ℕ => (1 : ℚ)/2) 1000000)) :=
  ⟨fun _ => by norm_num,
    C8_sample_set_immutable id (fun _ : ℕ => (1 : ℚ)/2) (fun j : ℕ => (j : ℚ)) 0 1
      (fun _ => by norm_num)⟩
